import Mathlib

/-!
Verification development for the Liberdus file-server (src/server.js).

The server is a content-addressed blob store over a single flat directory
(`DATA_DIR`): `POST /post` stages an upload (multer writes a temporary file
into `DATA_DIR`), streams it through SHA-256, renames it to the first 10 hex
characters of the digest (optionally suffixed `-secret`, with a symlink from
the bare id), `GET /get/:id` serves a file, `DELETE /delete/:id` removes a
file unless it is a symlink.

The embedding models the data directory as an association list from entry
names to entries (regular file with its bytes, or symlink with its target),
and each route handler as a function from request data and store to an
outcome and a new store.  SHA-256 is implemented in full over byte lists so
that concrete identifiers (e.g. `"2cf24dba5f"` for `"hello"`) are computed,
not assumed.  `fs.rename` is given POSIX semantics: renaming onto an
existing name atomically replaces it (it does not fail with `EEXIST`);
`fs.symlinkSync` fails whenever the link name is already occupied, by a file
or by a symlink alike; `fs.stat` follows symlinks while `fs.lstat` does not.
-/

namespace FileServer

/-! ## SHA-256 over byte lists (crypto.createHash('sha256'), lines 51, 60, 93) -/

/-- A byte, kept as a `Nat` in `[0, 255]`. -/
abbrev Byte := Nat

/-- Truncate to a 32-bit word. -/
def w32 (n : Nat) : Nat := n % 4294967296

/-- Rotate a 32-bit word right by `n` bits. -/
def rotr32 (x n : Nat) : Nat := w32 ((x >>> n) ||| (x <<< (32 - n)))

/-- Bitwise complement of a 32-bit word. -/
def bnot32 (x : Nat) : Nat := 4294967295 - x

/-- SHA-256 choice function. -/
def ch (e f g : Nat) : Nat := (e &&& f) ^^^ (bnot32 e &&& g)

/-- SHA-256 majority function. -/
def maj (a b c : Nat) : Nat := (a &&& b) ^^^ (a &&& c) ^^^ (b &&& c)

/-- SHA-256 big sigma 0. -/
def bigSigma0 (a : Nat) : Nat := rotr32 a 2 ^^^ rotr32 a 13 ^^^ rotr32 a 22

/-- SHA-256 big sigma 1. -/
def bigSigma1 (e : Nat) : Nat := rotr32 e 6 ^^^ rotr32 e 11 ^^^ rotr32 e 25

/-- SHA-256 small sigma 0. -/
def smallSigma0 (x : Nat) : Nat := rotr32 x 7 ^^^ rotr32 x 18 ^^^ (x >>> 3)

/-- SHA-256 small sigma 1. -/
def smallSigma1 (x : Nat) : Nat := rotr32 x 17 ^^^ rotr32 x 19 ^^^ (x >>> 10)

/-- The 64 SHA-256 round constants (decimal renderings of the standard
hexadecimal table). -/
def sha256K : List Nat :=
  [1116352408, 1899447441, 3049323471, 3921009573,
   961987163, 1508970993, 2453635748, 2870763221,
   3624381080, 310598401, 607225278, 1426881987,
   1925078388, 2162078206, 2614888103, 3248222580,
   3835390401, 4022224774, 264347078, 604807628,
   770255983, 1249150122, 1555081692, 1996064986,
   2554220882, 2821834349, 2952996808, 3210313671,
   3336571891, 3584528711, 113926993, 338241895,
   666307205, 773529912, 1294757372, 1396182291,
   1695183700, 1986661051, 2177026350, 2456956037,
   2730485921, 2820302411, 3259730800, 3345764771,
   3516065817, 3600352804, 4094571909, 275423344,
   430227734, 506948616, 659060556, 883997877,
   958139571, 1322822218, 1537002063, 1747873779,
   1955562222, 2024104815, 2227730452, 2361852424,
   2428436474, 2756734187, 3204031479, 3329325298]

/-- The SHA-256 initial hash state (decimal). -/
def sha256H0 : List Nat :=
  [1779033703, 3144134277, 1013904242, 2773480762,
   1359893119, 2600822924, 528734635, 1541459225]

/-- Split a list into chunks of `n` elements; `fuel` bounds the recursion. -/
def toChunksAux (n : Nat) : Nat → List Nat → List (List Nat)
  | 0, _ => []
  | _, [] => []
  | fuel + 1, xs => xs.take n :: toChunksAux n fuel (xs.drop n)

/-- Split a list into chunks of `n` elements (the last may be shorter). -/
def toChunks (n : Nat) (xs : List Nat) : List (List Nat) :=
  toChunksAux n xs.length xs

/-- Big-endian word value of a byte list. -/
def wordOfBytes (bs : List Byte) : Nat := bs.foldl (fun a b => a * 256 + b) 0

/-- SHA-256 padding: append `0x80`, zeros to 56 mod 64, then the bit length
as 8 big-endian bytes. -/
def padMessage (msg : List Byte) : List Byte :=
  let L := msg.length
  let k := (119 - L % 64) % 64
  let lenBits := 8 * L
  let lenBytes := (List.range 8).map fun i => (lenBits >>> (8 * (7 - i))) % 256
  msg ++ 128 :: (List.replicate k 0 ++ lenBytes)

/-- Extend the message schedule; the accumulator holds the words generated so
far in reverse order (newest first). -/
def extendSchedule : Nat → List Nat → List Nat
  | 0, rw => rw
  | n + 1, rw =>
    let g (i : Nat) : Nat := (rw.get? i).getD 0
    let next := w32 (smallSigma1 (g 1) + g 6 + smallSigma0 (g 14) + g 15)
    extendSchedule n (next :: rw)

/-- The 64-word message schedule of a 16-word block. -/
def messageSchedule (block : List Nat) : List Nat :=
  (extendSchedule 48 block.reverse).reverse

/-- One SHA-256 compression round on the working state `[a,b,c,d,e,f,g,h]`. -/
def compressRound (state : List Nat) (kw : Nat × Nat) : List Nat :=
  match state with
  | [a, b, c, d, e, f, g, h] =>
    let t1 := w32 (h + bigSigma1 e + ch e f g + kw.1 + kw.2)
    let t2 := w32 (bigSigma0 a + maj a b c)
    [w32 (t1 + t2), a, b, c, w32 (d + t1), e, f, g]
  | s => s

/-- Compress one 16-word block into the hash state. -/
def compressBlock (h : List Nat) (block : List Nat) : List Nat :=
  let ws := messageSchedule block
  let final := (sha256K.zip ws).foldl compressRound h
  (h.zip final).map fun p => w32 (p.1 + p.2)

/-- The eight 32-bit words of the SHA-256 digest of a byte list. -/
def sha256Words (msg : List Byte) : List Nat :=
  let blocks := toChunks 64 (padMessage msg)
  let wordBlocks := blocks.map fun b => (toChunks 4 b).map wordOfBytes
  wordBlocks.foldl compressBlock sha256H0

/-- A lowercase hexadecimal digit. -/
def hexDigit (n : Nat) : Char :=
  if n < 10 then Char.ofNat (48 + n) else Char.ofNat (87 + n)

/-- Eight lowercase hex characters of a 32-bit word, big-endian. -/
def wordToHex (w : Nat) : String :=
  String.mk ((List.range 8).map fun i => hexDigit ((w >>> (28 - 4 * i)) &&& 15))

/-- The lowercase hexadecimal SHA-256 digest of a byte list
(`hash.digest('hex')`, line 60). -/
def sha256Hex (msg : List Byte) : String :=
  String.join ((sha256Words msg).map wordToHex)

/-- The bytes of the string "hello". -/
def helloBytes : List Byte := [104, 101, 108, 108, 111]

set_option maxRecDepth 100000

/-! ## The data directory

`DATA_DIR` is a single flat directory.  An entry is a regular file holding
bytes, or a symbolic link holding a target name.  The directory is an
association list from names to entries; `lookupEntry` finds the binding,
`eraseEntry` removes it (`fs.unlink`), `insertEntry` creates-or-replaces it
(`fs.rename` with POSIX overwrite semantics, and symlink creation on a free
name). -/

/-- A directory entry: a regular file with its content bytes, or a symbolic
link with its target name. -/
inductive Entry where
  | file (content : List Byte)
  | symlink (target : String)
deriving DecidableEq, Repr

/-- The data directory: entry names bound to entries. -/
abbrev Store := List (String × Entry)

/-- Find the entry bound to a name (`fs.lstat` view: a symlink is returned
as itself, not followed). -/
def lookupEntry : Store → String → Option Entry
  | [], _ => none
  | (k, e) :: rest, n => if k = n then some e else lookupEntry rest n

/-- Remove every binding of a name (`fs.unlink`). -/
def eraseEntry (st : Store) (n : String) : Store :=
  st.filter fun p => p.1 != n

/-- Bind a name to an entry, replacing any previous binding (the effect of
`fs.rename` onto that name, which on POSIX atomically replaces an existing
file or symlink). -/
def insertEntry (st : Store) (n : String) (e : Entry) : Store :=
  (n, e) :: eraseEntry st n

/-! ## POST /post (server.js lines 37-94) -/

/-- Outcome of the upload handler.  `noFile` is the 400 "No file uploaded",
`invalidSecret` the 400 "Secret must be an alphanumeric string",
`symlinkFailed` the 500 "Failed to create symlink" (the renamed Primary
Entry is left in place), `ok id` the 200 `{id}` response.  The 500 branches
for a read-stream error or a failed rename model I/O faults outside the
store model and cannot occur here: the staged file exists and the directory
is writable. -/
inductive PostOutcome where
  | noFile
  | invalidSecret
  | symlinkFailed
  | ok (id : String)
deriving DecidableEq, Repr

/-- One character of the class `[a-zA-Z0-9]`. -/
def alnumChar (c : Char) : Bool := c.isAlpha || c.isDigit

/-- The test `/^[a-zA-Z0-9]+$/.test(s)`: nonempty and all alphanumeric. -/
def alnumString (s : String) : Bool := s != "" && s.data.all alnumChar

/-- JS truthiness of the `secret` field (line 62 `hasSecret = secret`):
present and not the empty string. -/
def secretTruthy : Option String → Bool
  | none => false
  | some s => s != ""

/-- The validation at line 45: reject when `secret` is truthy, a string, not
`''`, and fails the alphanumeric regex. -/
def secretInvalid : Option String → Bool
  | none => false
  | some s => s != "" && !alnumString s

/-- The `POST /post` handler.  `tmp` is the temporary name multer chose,
`file` the uploaded bytes (`none` when no `file` field was sent), `secret`
the optional text field.  Returns the response outcome and the directory
after the request. -/
def post (tmp : String) (file : Option (List Byte)) (secret : Option String)
    (st : Store) : PostOutcome × Store :=
  match file with
  | none => (.noFile, st)
  | some content =>
    -- multer has staged the upload at the temporary name (lines 26-34)
    let st₁ := insertEntry st tmp (.file content)
    if secretInvalid secret then
      -- line 46: fs.unlinkSync(tmpPath), then 400
      (.invalidSecret, eraseEntry st₁ tmp)
    else
      let fullHash := sha256Hex content
      let fileId := fullHash.take 10
      let hasSecret := secretTruthy secret
      let fileName := if hasSecret then fileId ++ "-" ++ secret.getD "" else fileId
      -- line 67: fs.rename(tmpPath, filePath) — replaces any existing entry
      let st₂ := insertEntry (eraseEntry st₁ tmp) fileName (.file content)
      if hasSecret then
        -- line 84: fs.symlinkSync fails with EEXIST when fileId is occupied
        if (lookupEntry st₂ fileId).isSome then
          (.symlinkFailed, st₂)
        else
          (.ok fileId, insertEntry st₂ fileId (.symlink fileName))
      else
        (.ok fileId, st₂)

/-! ## GET /get/:id (server.js lines 97-103) -/

/-- The `GET /get/:id` handler: `fs.stat` follows symlinks (a dangling link
fails with ENOENT, hence 404), then `res.sendFile` streams the resolved
file.  Links in this store only ever target regular-file names, so one
resolution step is exact. -/
def getFile (st : Store) (id : String) : Option (List Byte) :=
  match lookupEntry st id with
  | none => none
  | some (.file c) => some c
  | some (.symlink t) =>
    match lookupEntry st t with
    | some (.file c) => some c
    | _ => none

/-! ## DELETE /delete/:id (server.js lines 106-141) -/

/-- Outcome of the delete handler: 404, 403 "Cannot delete protected file",
or 200 `{success: true}`. -/
inductive DeleteOutcome where
  | notFound
  | protectedFile
  | okDeleted
deriving DecidableEq, Repr

/-- The `DELETE /delete/:id` handler: `fs.lstat` the name (404 when absent),
refuse symlinks with 403, else unlink the file and then best-effort unlink
whatever symlink sits at the first 10 characters of the identifier (the
lstat at line 131 checks only `isSymbolicLink()`, not whether the link is
dangling); errors of that cleanup are ignored and the response is success. -/
def deleteFile (st : Store) (id : String) : DeleteOutcome × Store :=
  match lookupEntry st id with
  | none => (.notFound, st)
  | some (.symlink _) => (.protectedFile, st)
  | some (.file _) =>
    let st₁ := eraseEntry st id
    let fileId := id.take 10
    match lookupEntry st₁ fileId with
    | some (.symlink _) => (.okDeleted, eraseEntry st₁ fileId)
    | _ => (.okDeleted, st₁)

/-! ## Path resolution (path.join at lines 98 and 107)

Express URL-decodes the `:id` route parameter, so an identifier such as
`..%2Fserver.js` reaches the handler as the string `../server.js`.
`path.join(DATA_DIR, id)` concatenates and then normalizes the result,
resolving `.` and `..` segments.  Paths are modelled as segment lists from
the filesystem root. -/

/-- Node `path.normalize` on an absolute path given as segments: drop empty
and `.` segments, let `..` pop the previous segment. -/
def normalizeSegs (segs : List String) : List String :=
  segs.foldl
    (fun acc seg =>
      if seg = "" || seg = "." then acc
      else if seg = ".." then acc.dropLast
      else acc ++ [seg])
    []

/-- Split a character list on `/` into path segments. -/
def splitSlashAux : List Char → List Char → List String
  | [], acc => [String.mk acc.reverse]
  | c :: cs, acc =>
    if c = '/' then String.mk acc.reverse :: splitSlashAux cs []
    else splitSlashAux cs (c :: acc)

/-- Split an identifier string on `/` into path segments. -/
def splitSlash (s : String) : List String := splitSlashAux s.data []

/-- `path.join(dir, id)`: split `id` on `/`, append to the directory's
segments, normalize. -/
def joinPath (dir : List String) (id : String) : List String :=
  normalizeSegs (dir ++ splitSlash id)

/-- Whether a resolved path lies strictly inside a directory. -/
def insideDir (dir : List String) (p : List String) : Bool :=
  p.take dir.length == dir && dir.length < p.length

example : post "t" (some helloBytes) none [] =
    (.ok "2cf24dba5f", [("2cf24dba5f", .file helloBytes)]) := by decide
example : post "t" (some helloBytes) (some "abc123") [] =
    (.ok "2cf24dba5f", [("2cf24dba5f", .symlink "2cf24dba5f-abc123"),
      ("2cf24dba5f-abc123", .file helloBytes)]) := by decide
example : joinPath ["app", "data"] "../server.js" = ["app", "server.js"] := by decide

/-! ## Store lemmas -/

/-- Looking up after an erase: the erased name is gone, others unchanged. -/
theorem lookup_erase (st : Store) (n m : String) :
    lookupEntry (eraseEntry st n) m = if n = m then none else lookupEntry st m := by
  induction st with
  | nil => simp [eraseEntry, lookupEntry]
  | cons p rest ih =>
    obtain ⟨k, e⟩ := p
    by_cases hkn : k = n
    · subst hkn
      have hstep : eraseEntry ((k, e) :: rest) k = eraseEntry rest k := by
        simp [eraseEntry, List.filter_cons]
      rw [hstep, ih]
      by_cases hkm : k = m
      · simp [hkm]
      · simp [lookupEntry, hkm]
    · have hstep : eraseEntry ((k, e) :: rest) n = (k, e) :: eraseEntry rest n := by
        simp [eraseEntry, List.filter_cons, hkn]
      rw [hstep]
      by_cases hkm : k = m
      · have hnm : ¬n = m := fun h => hkn (hkm.trans h.symm)
        simp [lookupEntry, hkm, hnm]
      · simp [lookupEntry, hkm, ih]

/-- Looking up after an insert: the inserted name is found, others unchanged. -/
theorem lookup_insert (st : Store) (n m : String) (e : Entry) :
    lookupEntry (insertEntry st n e) m = if n = m then some e else lookupEntry st m := by
  by_cases h : n = m <;> simp [insertEntry, lookupEntry, h, lookup_erase]

/-- Erasing a name that is not bound leaves the store untouched. -/
theorem erase_of_lookup_none (st : Store) (n : String)
    (h : lookupEntry st n = none) : eraseEntry st n = st := by
  induction st with
  | nil => rfl
  | cons p rest ih =>
    obtain ⟨k, e⟩ := p
    by_cases hk : k = n
    · subst hk; simp [lookupEntry] at h
    · have hstep : eraseEntry ((k, e) :: rest) n = (k, e) :: eraseEntry rest n := by
        simp [eraseEntry, List.filter_cons, hk]
      simp only [lookupEntry, if_neg hk] at h
      rw [hstep, ih h]

/-- Erasing twice is the same as erasing once. -/
theorem erase_erase (st : Store) (n : String) :
    eraseEntry (eraseEntry st n) n = eraseEntry st n :=
  erase_of_lookup_none _ _ (by simp [lookup_erase])

/-- Erasing a name right after inserting it undoes the insert. -/
theorem erase_insert (st : Store) (n : String) (e : Entry) :
    eraseEntry (insertEntry st n e) n = eraseEntry st n := by
  have h1 : eraseEntry ((n, e) :: eraseEntry st n) n = eraseEntry (eraseEntry st n) n := by
    simp [eraseEntry, List.filter_cons]
  rw [insertEntry, h1, erase_erase]

/-! ## Claim theorems -/

/-- Claim C6: deleting by a name that is an Alias Link is refused with the
403 protected-file error and the directory is returned unchanged, so a
subsequent fetch of the link name or of the aliased Primary Entry behaves
exactly as before the attempt. -/
theorem delete_symlink_protected (st : Store) (id t : String)
    (h : lookupEntry st id = some (.symlink t)) :
    deleteFile st id = (.protectedFile, st) := by
  simp [deleteFile, h]

/-- Witness for C6: a concrete aliased store, deleting by the link name. -/
theorem delete_symlink_protected_witness :
    deleteFile [("aaaaaaaaaa", Entry.symlink "aaaaaaaaaa-x"),
        ("aaaaaaaaaa-x", Entry.file [1])] "aaaaaaaaaa"
      = (.protectedFile,
        [("aaaaaaaaaa", Entry.symlink "aaaaaaaaaa-x"),
          ("aaaaaaaaaa-x", Entry.file [1])]) :=
  delete_symlink_protected _ "aaaaaaaaaa" "aaaaaaaaaa-x" rfl

/-- Claim C10: a supplied but empty secret is falsy in JS, so the upload is
handled exactly as if no secret was supplied: same outcome, same directory,
and the operation succeeds with the bare canonical identifier as a Primary
Entry and no Alias Link. -/
theorem post_empty_secret_like_none (tmp : String) (B : List Byte) (st : Store) :
    post tmp (some B) (some "") st = post tmp (some B) none st ∧
    (post tmp (some B) (some "") st).1 = .ok ((sha256Hex B).take 10) := by
  refine ⟨rfl, ?_⟩
  simp [post, secretInvalid, secretTruthy, alnumString]

/-- Claim C4, amended: a missing upload stream is rejected with the 400
no-file error and the directory is untouched; but a present zero-byte
upload is NOT rejected — it is committed as an empty Primary Entry named by
the digest of the empty byte sequence. -/
theorem post_noFile_only_when_absent :
    (∀ tmp secret st, post tmp none secret st = (.noFile, st)) ∧
    (post "t" (some ([] : List Byte)) none []).1 = .ok "e3b0c44298" :=
  ⟨fun _ _ _ => rfl, by decide⟩

/-- Counterexample to C4 as stated: a zero-byte upload is accepted with 200
and creates a Storage Entry, instead of failing with the 400 no-content
error and creating nothing. -/
theorem post_zero_byte_accepted :
    post "t" (some ([] : List Byte)) none []
      = (.ok "e3b0c44298", [("e3b0c44298", Entry.file [])]) ∧
    (PostOutcome.ok "e3b0c44298") ≠ .noFile := by
  exact ⟨by decide, by decide⟩

/-- Claim C5 (code bug): the `:id` route parameter is URL-decoded by the
framework, and `path.join(DATA_DIR, id)` normalizes `..` segments, so the
identifier `../server.js` (sent as `..%2Fserver.js`) resolves OUTSIDE the
data directory — to the server source next to it — while an ordinary
identifier resolves inside.  `GET` serves and `DELETE` unlinks that
escaped path. -/
theorem path_traversal_escapes :
    joinPath ["app", "data"] "../server.js" = ["app", "server.js"] ∧
    insideDir ["app", "data"] (joinPath ["app", "data"] "../server.js") = false ∧
    insideDir ["app", "data"] (joinPath ["app", "data"] "2cf24dba5f") = true := by
  exact ⟨by decide, by decide, by decide⟩

/-- Claim C9: a nonempty secret containing a non-alphanumeric character is
rejected with the 400 invalid-secret error before anything is committed;
the staged temporary file is unlinked, so a directory that did not already
bind the temporary name comes back exactly as it was — no Storage Entry and
no temporary file remain. -/
theorem post_invalid_secret_rejected (tmp s : String) (B : List Byte) (st : Store)
    (hs : s ≠ "") (hbad : s.data.all alnumChar = false)
    (htmp : lookupEntry st tmp = none) :
    post tmp (some B) (some s) st = (.invalidSecret, st) := by
  have hinv : secretInvalid (some s) = true := by
    simp [secretInvalid, alnumString, hbad, hs]
  simp [post, hinv, erase_insert, erase_of_lookup_none st tmp htmp]

/-- Witness for C9: the secret `"a b"` on an empty directory. -/
theorem post_invalid_secret_rejected_witness :
    post "t" (some [1]) (some "a b") [] = (.invalidSecret, []) :=
  post_invalid_secret_rejected "t" "a b" [1] [] (by decide) (by decide) rfl

/-- An aliased entry name `id ++ "-" ++ s` is never the bare name `id`. -/
theorem aliased_name_ne (s t : String) : s ++ "-" ++ t ≠ s := by
  intro h
  have hlen := congrArg String.length h
  rw [String.length_append, String.length_append] at hlen
  have hone : ("-" : String).length = 1 := rfl
  rw [hone] at hlen
  omega

/-- Counterexample to C2 as stated: committing content whose Primary Entry
name is already occupied by different bytes reports success but OVERWRITES
the occupant — `fs.rename` replaces an existing target on POSIX — so the
last writer's bytes are kept, not the first writer's, and the staged data
is not discarded. -/
theorem post_overwrites_counterexample :
    post "t" (some ([] : List Byte)) none [("e3b0c44298", Entry.file [1])]
      = (.ok "e3b0c44298", [("e3b0c44298", Entry.file [])]) ∧
    Entry.file ([] : List Byte) ≠ Entry.file [1] := by
  exact ⟨by decide, by decide⟩

/-- Claim C2, amended: when the target Primary Entry name already exists,
the commit still reports success with the canonical identifier, but the
staged bytes replace the existing entry (rename-with-overwrite: on a
truncated-digest collision the LAST writer's bytes are kept), and the
temporary staging name is gone from the directory. -/
theorem post_existing_entry_overwritten (tmp : String) (B : List Byte) (st : Store)
    (_hocc : (lookupEntry st ((sha256Hex B).take 10)).isSome = true)
    (htmp : tmp ≠ (sha256Hex B).take 10) :
    (post tmp (some B) none st).1 = .ok ((sha256Hex B).take 10) ∧
    lookupEntry (post tmp (some B) none st).2 ((sha256Hex B).take 10)
      = some (.file B) ∧
    lookupEntry (post tmp (some B) none st).2 tmp = none := by
  have hpost : post tmp (some B) none st
      = (.ok ((sha256Hex B).take 10),
          insertEntry (eraseEntry (insertEntry st tmp (.file B)) tmp)
            ((sha256Hex B).take 10) (.file B)) := by
    simp [post, secretInvalid, secretTruthy]
  rw [hpost]
  refine ⟨rfl, by simp [lookup_insert], ?_⟩
  rw [lookup_insert, if_neg (fun hh => htmp hh.symm), lookup_erase]
  simp

/-- Witness for C2's amended theorem: empty content over an occupied name. -/
theorem post_existing_entry_overwritten_witness :
    (post "t" (some ([] : List Byte)) none [("e3b0c44298", Entry.file [1])]).1
      = .ok ((sha256Hex []).take 10) ∧
    lookupEntry (post "t" (some ([] : List Byte)) none
        [("e3b0c44298", Entry.file [1])]).2 ((sha256Hex []).take 10)
      = some (.file []) ∧
    lookupEntry (post "t" (some ([] : List Byte)) none
        [("e3b0c44298", Entry.file [1])]).2 "t" = none :=
  post_existing_entry_overwritten "t" [] [("e3b0c44298", Entry.file [1])]
    (by decide) (by decide)

/-- Counterexample to C1 as stated: when an Alias Link already occupies the
bare canonical name, re-committing the same content with a fresh alias is
NOT a no-op success — `fs.symlinkSync` fails with `EEXIST` on any occupant,
link or file alike, and the handler answers the 500 symlink error. -/
theorem post_alias_existing_link_not_noop :
    (post "t" (some ([] : List Byte)) (some "b")
        [("e3b0c44298", Entry.symlink "e3b0c44298-a"),
          ("e3b0c44298-a", Entry.file [])]).1 = .symlinkFailed ∧
    PostOutcome.symlinkFailed ≠ .ok "e3b0c44298" := by
  exact ⟨by decide, by decide⟩

/-- Claim C1, amended: whenever the bare canonical name is occupied — by an
Alias Link or by a Primary Entry, the occupant's kind makes no difference —
alias-link creation fails and the commit is reported as the 500 symlink
error rather than success; the Primary Entry rename has already happened
and the aliased entry remains stored under its full name. -/
theorem post_alias_conflict (st : Store) (tmp s : String) (B : List Byte)
    (hs : alnumString s = true)
    (hocc : (lookupEntry st ((sha256Hex B).take 10)).isSome = true)
    (htmp : tmp ≠ (sha256Hex B).take 10) :
    (post tmp (some B) (some s) st).1 = .symlinkFailed ∧
    lookupEntry (post tmp (some B) (some s) st).2
      ((sha256Hex B).take 10 ++ "-" ++ s) = some (.file B) := by
  have hne : s ≠ "" := by
    intro hh; subst hh; simp [alnumString] at hs
  have hinv : secretInvalid (some s) = false := by
    simp [secretInvalid, alnumString] at hs ⊢
    intro _; exact hs
  have htr : secretTruthy (some s) = true := by simp [secretTruthy, hne]
  have hocc2 : (lookupEntry (insertEntry (eraseEntry (insertEntry st tmp (.file B)) tmp)
      ((sha256Hex B).take 10 ++ "-" ++ s) (.file B)) ((sha256Hex B).take 10)).isSome
      = true := by
    rw [lookup_insert, if_neg (aliased_name_ne _ s), lookup_erase,
      if_neg (fun hh => htmp hh), lookup_insert, if_neg (fun hh => htmp hh)]
    exact hocc
  have hpost : post tmp (some B) (some s) st
      = (.symlinkFailed,
          insertEntry (eraseEntry (insertEntry st tmp (.file B)) tmp)
            ((sha256Hex B).take 10 ++ "-" ++ s) (.file B)) := by
    simp [post, hinv, htr, hocc2]
  rw [hpost]
  exact ⟨rfl, by rw [lookup_insert, if_pos rfl]⟩

/-- Witness for C1's amended theorem: the bare name holds an Alias Link from
an earlier aliased commit of the same content. -/
theorem post_alias_conflict_witness :
    (post "t" (some ([] : List Byte)) (some "b")
        [("e3b0c44298", Entry.symlink "e3b0c44298-a"),
          ("e3b0c44298-a", Entry.file [])]).1 = .symlinkFailed ∧
    lookupEntry (post "t" (some ([] : List Byte)) (some "b")
        [("e3b0c44298", Entry.symlink "e3b0c44298-a"),
          ("e3b0c44298-a", Entry.file [])]).2
      ((sha256Hex []).take 10 ++ "-" ++ "b") = some (.file []) :=
  post_alias_conflict [("e3b0c44298", Entry.symlink "e3b0c44298-a"),
      ("e3b0c44298-a", Entry.file [])] "t" "b" []
    (by decide) (by decide) (by decide)

/-- Counterexample to C3 as stated: deleting the Primary Entry
`aaaaaaaaaa-y` removes the Alias Link `aaaaaaaaaa` even though the link's
target `aaaaaaaaaa-x` still exists — the cleanup checks only that the name
is a symlink, never whether it is dangling. -/
theorem delete_removes_live_link_counterexample :
    deleteFile [("aaaaaaaaaa-x", Entry.file [1]), ("aaaaaaaaaa-y", Entry.file [2]),
        ("aaaaaaaaaa", Entry.symlink "aaaaaaaaaa-x")] "aaaaaaaaaa-y"
      = (.okDeleted, [("aaaaaaaaaa-x", Entry.file [1])]) ∧
    lookupEntry [("aaaaaaaaaa-x", Entry.file [1]), ("aaaaaaaaaa-y", Entry.file [2]),
        ("aaaaaaaaaa", Entry.symlink "aaaaaaaaaa-x")] "aaaaaaaaaa-x"
      = some (Entry.file [1]) := by
  exact ⟨by decide, by decide⟩

/-- Claim C3, amended: deleting an identifier bound to a Primary Entry
succeeds, removes that entry, and then best-effort removes ANY Alias Link
sitting at the first 10 characters of the identifier — dangling or not;
cleanup failure (or there being no link) never fails the delete, and every
other name is untouched. -/
theorem delete_primary_cleans_any_link (st : Store) (id : String) (c : List Byte)
    (h : lookupEntry st id = some (.file c)) :
    (deleteFile st id).1 = .okDeleted ∧
    lookupEntry (deleteFile st id).2 id = none ∧
    (∀ t, lookupEntry (eraseEntry st id) (id.take 10) = some (.symlink t) →
        lookupEntry (deleteFile st id).2 (id.take 10) = none) ∧
    (∀ n, n ≠ id → n ≠ id.take 10 →
        lookupEntry (deleteFile st id).2 n = lookupEntry st n) := by
  rcases hm : lookupEntry (eraseEntry st id) (id.take 10) with _ | e
  · have hd : deleteFile st id = (.okDeleted, eraseEntry st id) := by
      simp [deleteFile, h, hm]
    rw [hd]
    refine ⟨rfl, by simp [lookup_erase], ?_, ?_⟩
    · intro t ht; simp at ht
    · intro n hn1 _
      rw [lookup_erase, if_neg (fun hh => hn1 hh.symm)]
  · cases e with
    | file c2 =>
      have hd : deleteFile st id = (.okDeleted, eraseEntry st id) := by
        simp [deleteFile, h, hm]
      rw [hd]
      refine ⟨rfl, by simp [lookup_erase], ?_, ?_⟩
      · intro t ht; simp at ht
      · intro n hn1 _
        rw [lookup_erase, if_neg (fun hh => hn1 hh.symm)]
    | symlink t0 =>
      have hd : deleteFile st id
          = (.okDeleted, eraseEntry (eraseEntry st id) (id.take 10)) := by
        simp [deleteFile, h, hm]
      rw [hd]
      refine ⟨rfl, ?_, ?_, ?_⟩
      · rw [lookup_erase]
        by_cases hh : id.take 10 = id
        · simp [hh]
        · rw [if_neg hh, lookup_erase]; simp
      · intro t ht
        rw [lookup_erase, if_pos rfl]
      · intro n hn1 hn2
        rw [lookup_erase, if_neg (fun hh => hn2 hh.symm), lookup_erase,
          if_neg (fun hh => hn1 hh.symm)]

/-- Witness for C3's amended theorem: a store holding just one Primary
Entry, deleted by its own name. -/
theorem delete_primary_cleans_any_link_witness :
    (deleteFile [("bbbbbbbbbb", Entry.file [2])] "bbbbbbbbbb").1 = .okDeleted ∧
    lookupEntry (deleteFile [("bbbbbbbbbb", Entry.file [2])] "bbbbbbbbbb").2
      "bbbbbbbbbb" = none :=
  ⟨(delete_primary_cleans_any_link [("bbbbbbbbbb", Entry.file [2])]
      "bbbbbbbbbb" [2] rfl).1,
    (delete_primary_cleans_any_link [("bbbbbbbbbb", Entry.file [2])]
      "bbbbbbbbbb" [2] rfl).2.1⟩

/-- Claim C7: from a directory where the canonical name is free, ingesting
bytes B — without an alias, or with an alphanumeric alias A — succeeds with
the canonical identifier, and fetching that identifier (and, in the alias
case, also the full `id-alias` name) returns exactly B. -/
theorem ingest_then_fetch_roundtrip (B : List Byte) (A tmp : String) (st : Store)
    (hA : alnumString A = true)
    (hfree : lookupEntry st ((sha256Hex B).take 10) = none)
    (htmp : tmp ≠ (sha256Hex B).take 10) :
    (post tmp (some B) none st).1 = .ok ((sha256Hex B).take 10) ∧
    getFile (post tmp (some B) none st).2 ((sha256Hex B).take 10) = some B ∧
    (post tmp (some B) (some A) st).1 = .ok ((sha256Hex B).take 10) ∧
    getFile (post tmp (some B) (some A) st).2 ((sha256Hex B).take 10) = some B ∧
    getFile (post tmp (some B) (some A) st).2
      ((sha256Hex B).take 10 ++ "-" ++ A) = some B := by
  have hAne : A ≠ "" := by
    intro hh; subst hh; simp [alnumString] at hA
  have hinv : secretInvalid (some A) = false := by
    simp [secretInvalid, alnumString] at hA ⊢
    intro _; exact hA
  have htr : secretTruthy (some A) = true := by simp [secretTruthy, hAne]
  have hpost1 : post tmp (some B) none st
      = (.ok ((sha256Hex B).take 10),
          insertEntry (eraseEntry (insertEntry st tmp (.file B)) tmp)
            ((sha256Hex B).take 10) (.file B)) := by
    simp [post, secretInvalid, secretTruthy]
  have hfree2 : lookupEntry (insertEntry (eraseEntry (insertEntry st tmp (.file B)) tmp)
      ((sha256Hex B).take 10 ++ "-" ++ A) (.file B)) ((sha256Hex B).take 10) = none := by
    rw [lookup_insert, if_neg (aliased_name_ne _ A), lookup_erase,
      if_neg (fun hh => htmp hh), lookup_insert, if_neg (fun hh => htmp hh)]
    exact hfree
  have hpost2 : post tmp (some B) (some A) st
      = (.ok ((sha256Hex B).take 10),
          insertEntry (insertEntry (eraseEntry (insertEntry st tmp (.file B)) tmp)
              ((sha256Hex B).take 10 ++ "-" ++ A) (.file B))
            ((sha256Hex B).take 10)
            (.symlink ((sha256Hex B).take 10 ++ "-" ++ A))) := by
    simp [post, hinv, htr, hfree2]
  have l2 : lookupEntry (insertEntry (insertEntry (eraseEntry (insertEntry st tmp
        (.file B)) tmp) ((sha256Hex B).take 10 ++ "-" ++ A) (.file B))
      ((sha256Hex B).take 10) (.symlink ((sha256Hex B).take 10 ++ "-" ++ A)))
      ((sha256Hex B).take 10 ++ "-" ++ A) = some (.file B) := by
    rw [lookup_insert, if_neg (fun hh => aliased_name_ne _ A hh.symm),
      lookup_insert, if_pos rfl]
  have l1 : lookupEntry (insertEntry (insertEntry (eraseEntry (insertEntry st tmp
        (.file B)) tmp) ((sha256Hex B).take 10 ++ "-" ++ A) (.file B))
      ((sha256Hex B).take 10) (.symlink ((sha256Hex B).take 10 ++ "-" ++ A)))
      ((sha256Hex B).take 10) = some (.symlink ((sha256Hex B).take 10 ++ "-" ++ A)) := by
    rw [lookup_insert, if_pos rfl]
  refine ⟨by rw [hpost1], ?_, by rw [hpost2], ?_, ?_⟩
  · rw [hpost1]
    simp [getFile, lookup_insert]
  · rw [hpost2]
    simp [getFile, l1, l2]
  · rw [hpost2]
    simp [getFile, l2]

/-- Witness for C7: the bytes of "hello" with alias "abc123" on an empty
directory. -/
theorem ingest_then_fetch_roundtrip_witness :
    (post "t" (some helloBytes) none []).1 = .ok ((sha256Hex helloBytes).take 10) ∧
    getFile (post "t" (some helloBytes) none []).2
      ((sha256Hex helloBytes).take 10) = some helloBytes ∧
    (post "t" (some helloBytes) (some "abc123") []).1
      = .ok ((sha256Hex helloBytes).take 10) ∧
    getFile (post "t" (some helloBytes) (some "abc123") []).2
      ((sha256Hex helloBytes).take 10) = some helloBytes ∧
    getFile (post "t" (some helloBytes) (some "abc123") []).2
      ((sha256Hex helloBytes).take 10 ++ "-" ++ "abc123") = some helloBytes :=
  ingest_then_fetch_roundtrip helloBytes "abc123" "t" [] (by decide) rfl (by decide)

/-- Claim C8: every identifier in a 200 response from the upload handler is
exactly the first 10 characters of the lowercase hexadecimal SHA-256 digest
of the uploaded bytes (the model hashes the full content, every byte in
order exactly once); for the bytes of "hello" that prefix is "2cf24dba5f". -/
theorem post_ok_id_from_sha256 (tmp : String) (B : List Byte)
    (secret : Option String) (st : Store) (id : String)
    (h : (post tmp (some B) secret st).1 = PostOutcome.ok id) :
    id = (sha256Hex B).take 10 ∧
    (sha256Hex helloBytes).take 10 = "2cf24dba5f" := by
  refine ⟨?_, by decide⟩
  simp only [post] at h
  split at h
  · exact absurd h (by simp)
  · split at h
    · split at h
      · exact absurd h (by simp)
      · simp at h; exact h.symm
    · simp at h; exact h.symm

/-- Witness for C8: uploading the bytes of "hello" with no secret returns
exactly "2cf24dba5f". -/
theorem post_ok_id_from_sha256_witness :
    "2cf24dba5f" = (sha256Hex helloBytes).take 10 ∧
    (sha256Hex helloBytes).take 10 = "2cf24dba5f" :=
  post_ok_id_from_sha256 "t" helloBytes none [] "2cf24dba5f" (by decide)

end FileServer
